import Mathlib

/- Verification of the task-management core of TODO-MANGEMENT-SERVER.

   Shallow embedding of:
   - TasksService (src/unnamed/part_012): createTask, findAll, findOne, update,
     remove, deleteTaskAsManager, validateStatusTransition;
   - DashboardGateway.handleConnection (src/src/websocket/websocket.gateway.ts);
   - ManagerDashboardService (src/src/dashboard/manager-dashboard.service.ts);
   - the Task schema (embedded in src/src/websocket/guards/ws-roles.guard.ts).

   Identifiers (Mongo ObjectIds) are strings; timestamps are naturals.
   Mongoose documents become Lean structures; thrown Nest exceptions become
   an explicit error type returned through Except. -/

namespace TodoServer

/-- UserRole from src/users/schemas/user.schema (referenced throughout the source). -/
inductive UserRole where
  | ADMIN
  | MANAGER
  | MEMBER
deriving DecidableEq, Repr

/-- TaskStatus enum from the Task schema. -/
inductive TaskStatus where
  | TODO
  | IN_PROGRESS
  | REVIEW
  | COMPLETED
  | CANCELLED
deriving DecidableEq, Repr

/-- TaskPriority enum from the Task schema. -/
inductive TaskPriority where
  | LOW
  | MEDIUM
  | HIGH
deriving DecidableEq, Repr

abbrev UserId := String

abbrev TaskId := String

/-- The slice of the User document the task core reads (id and role). -/
structure User where
  id : UserId
  role : UserRole
deriving DecidableEq, Repr

/-- TaskHistoryItem from the Task schema: field, oldValue, newValue, timestamp, updatedBy. -/
structure HistoryItem where
  field : String
  oldValue : String
  newValue : String
  timestamp : Nat
  updatedBy : UserId
deriving DecidableEq, Repr

/-- The Task document (Task schema). `dueDate`, `description`, `updatedAt` and
`lastUpdatedBy` are optional in the schema; `assignedTo`, `assignedBy` and
`createdBy` are always set by `createTask`, so they are plain ids here. -/
structure Task where
  id : TaskId
  title : String
  description : Option String := none
  status : TaskStatus := TaskStatus.TODO
  priority : TaskPriority := TaskPriority.MEDIUM
  dueDate : Option Nat := none
  assignedTo : UserId
  assignedBy : UserId
  isPersonal : Bool := false
  createdBy : UserId
  updatedAt : Option Nat := none
  lastUpdatedBy : Option UserId := none
  statusHistory : List HistoryItem := []
  priorityHistory : List HistoryItem := []
  assignmentHistory : List HistoryItem := []
  dueDateHistory : List HistoryItem := []
deriving DecidableEq, Repr

/-- The Nest exceptions TasksService throws. The invalid-transition failure is a
BadRequestException whose message interpolates the current status and
validTransitions[currentStatus]; it is embedded as a constructor carrying
exactly those two data. -/
inductive ApiError where
  | notFound (msg : String)
  | forbidden (msg : String)
  | badRequest (msg : String)
  | invalidTransition (current : TaskStatus) (validNext : List TaskStatus)
deriving DecidableEq, Repr

/-- CreateTaskDto (src/tasks/dto/create-task.dto.ts, in src/unnamed/part_001). -/
structure CreateTaskDto where
  title : String
  description : Option String := none
  priority : Option TaskPriority := none
  dueDate : Option Nat := none
  assignedTo : Option UserId := none
  isPersonal : Option Bool := none
deriving DecidableEq, Repr

/-- Modelled from the spec: the file src/tasks/dto/update-task.dto.ts is absent from
the snapshot (only its importers exist). Per spec section 4.1 and section 6 an update
patch may carry title, description, priority, due date, assignee and status - exactly
the fields TasksService.update reads and applies; the global ValidationPipe
(whitelist + forbidNonWhitelisted, src/src/main.ts) rejects any other field.
`dueDate` distinguishes absent (`none`), present-but-falsy which clears the date
(`some none`), and present (`some (some d)`). -/
structure UpdateTaskDto where
  title : Option String := none
  description : Option String := none
  priority : Option TaskPriority := none
  dueDate : Option (Option Nat) := none
  assignedTo : Option UserId := none
  status : Option TaskStatus := none
deriving DecidableEq, Repr

/-- userModel.findById. -/
def findUser (users : List User) (uid : UserId) : Option User :=
  users.find? (fun u => u.id == uid)

/-- taskModel.findById. -/
def findTask (tasks : List Task) (tid : TaskId) : Option Task :=
  tasks.find? (fun t => t.id == tid)

/-- The validTransitions table of TasksService.validateStatusTransition
(src/unnamed/part_012 lines 488-494). -/
def validTransitions : TaskStatus → List TaskStatus
  | TaskStatus.TODO => [TaskStatus.IN_PROGRESS, TaskStatus.CANCELLED]
  | TaskStatus.IN_PROGRESS => [TaskStatus.REVIEW, TaskStatus.CANCELLED, TaskStatus.COMPLETED]
  | TaskStatus.REVIEW => [TaskStatus.COMPLETED, TaskStatus.IN_PROGRESS, TaskStatus.CANCELLED]
  | TaskStatus.COMPLETED => [TaskStatus.IN_PROGRESS, TaskStatus.REVIEW]
  | TaskStatus.CANCELLED => [TaskStatus.TODO, TaskStatus.IN_PROGRESS]

/-- TasksService.validateStatusTransition (src/unnamed/part_012 lines 486-502). -/
def validateStatusTransition (currentStatus newStatus : TaskStatus) : Except ApiError Unit :=
  if (validTransitions currentStatus).contains newStatus then Except.ok ()
  else Except.error (ApiError.invalidTransition currentStatus (validTransitions currentStatus))

/-- The permission block of TasksService.update (src/unnamed/part_012 lines 249-266).
ADMIN actors fall through every branch and are allowed. -/
def updatePermission (user : User) (task : Task) (userId : UserId) : Except ApiError Unit :=
  if task.isPersonal then
    if task.createdBy ≠ userId then
      Except.error (ApiError.forbidden "Cannot modify personal task of another user")
    else Except.ok ()
  else if user.role = UserRole.MEMBER then
    if task.assignedTo ≠ userId ∧ task.createdBy ≠ userId then
      Except.error (ApiError.forbidden "Cannot modify project task not assigned to you")
    else Except.ok ()
  else if user.role = UserRole.MANAGER then
    if task.createdBy ≠ userId then
      Except.error (ApiError.forbidden "Can only modify tasks you created")
    else Except.ok ()
  else Except.ok ()

/-- The status-transition gate of TasksService.update (lines 268-271): validated only
when the dto carries a status different from the current one. -/
def statusCheck (dto : UpdateTaskDto) (task : Task) : Except ApiError Unit :=
  match dto.status with
  | some s => if s ≠ task.status then validateStatusTransition task.status s else Except.ok ()
  | none => Except.ok ()

/-- The reassignment validation of TasksService.update (lines 273-279): only when the
dto carries assignedTo, the task is a project task and the actor is a MANAGER. -/
def assignCheck (users : List User) (dto : UpdateTaskDto) (task : Task) (user : User) :
    Except ApiError Unit :=
  match dto.assignedTo with
  | some a =>
    if ¬task.isPersonal ∧ user.role = UserRole.MANAGER then
      match findUser users a with
      | some assignedUser =>
        if assignedUser.role ≠ UserRole.MEMBER then
          Except.error (ApiError.badRequest "Can only assign tasks to members")
        else Except.ok ()
      | none => Except.error (ApiError.badRequest "Can only assign tasks to members")
    else Except.ok ()
  | none => Except.ok ()

/-- findByIdAndUpdate with updateData = { ...updateTaskDto } plus the special dueDate
and assignedTo handling (lines 281-297). Every present dto field is applied,
whatever the actor's role. -/
def applyUpdate (task : Task) (dto : UpdateTaskDto) : Task :=
  { task with
    title := dto.title.getD task.title
    description := match dto.description with
      | some d => some d
      | none => task.description
    priority := dto.priority.getD task.priority
    status := dto.status.getD task.status
    assignedTo := dto.assignedTo.getD task.assignedTo
    dueDate := match dto.dueDate with
      | none => task.dueDate
      | some none => none
      | some (some d) => some d }

/-- The compact counter actions (TaskAction in src/src/dashboard/interfaces/common.ts). -/
inductive TaskAction where
  | TASK_CREATED
  | TASK_HIGH_PRIORITY
  | TASK_DUE_DATE
  | TASK_COMPLETED
  | TASK_IN_PROGRESS
deriving DecidableEq, Repr

/-- One dashboardGateway.emitTaskEvent(managerId, action, isIncrement) request. -/
structure Emit where
  managerId : UserId
  action : TaskAction
  isIncrement : Bool
deriving DecidableEq, Repr

/-- The due-date counter emissions of TasksService.update (lines 310-320). -/
def updateDueDateEmits (managerId : UserId) (dto : UpdateTaskDto) (previousDueDate : Option Nat) :
    List Emit :=
  match dto.dueDate with
  | none => []
  | some v =>
    let hadDueDate := previousDueDate.isSome
    let hasDueDateNow := v.isSome
    (if ¬hadDueDate ∧ hasDueDateNow then [⟨managerId, TaskAction.TASK_DUE_DATE, true⟩] else [])
      ++ (if hadDueDate ∧ ¬hasDueDateNow then [⟨managerId, TaskAction.TASK_DUE_DATE, false⟩] else [])

/-- The status counter emissions of TasksService.update (lines 322-341). -/
def updateStatusEmits (managerId : UserId) (dto : UpdateTaskDto) (previousStatus : TaskStatus) :
    List Emit :=
  match dto.status with
  | none => []
  | some s =>
    if s ≠ previousStatus then
      (if s = TaskStatus.COMPLETED then
        ⟨managerId, TaskAction.TASK_COMPLETED, true⟩ ::
          (if previousStatus = TaskStatus.IN_PROGRESS then
            [⟨managerId, TaskAction.TASK_IN_PROGRESS, false⟩] else [])
      else if previousStatus = TaskStatus.COMPLETED then
        [⟨managerId, TaskAction.TASK_COMPLETED, false⟩]
      else [])
      ++
      (if s = TaskStatus.IN_PROGRESS then [⟨managerId, TaskAction.TASK_IN_PROGRESS, true⟩]
       else if previousStatus = TaskStatus.IN_PROGRESS then
        [⟨managerId, TaskAction.TASK_IN_PROGRESS, false⟩]
       else [])
    else []

/-- The whole emission block of TasksService.update (lines 303-342): project tasks
only, scoped to the updated task's createdBy. -/
def updateEmits (updatedTask : Task) (dto : UpdateTaskDto) (previousStatus : TaskStatus)
    (previousDueDate : Option Nat) : List Emit :=
  if updatedTask.isPersonal then []
  else
    updateDueDateEmits updatedTask.createdBy dto previousDueDate
      ++ updateStatusEmits updatedTask.createdBy dto previousStatus

/-- TasksService.update (src/unnamed/part_012 lines 238-345). Returns the updated
task together with the ordered emitTaskEvent requests it performs. -/
def update (users : List User) (tasks : List Task) (id : TaskId) (dto : UpdateTaskDto)
    (userId : UserId) : Except ApiError (Task × List Emit) :=
  match findUser users userId with
  | none => Except.error (ApiError.notFound "User not found")
  | some user =>
    match findTask tasks id with
    | none => Except.error (ApiError.notFound "Task not found")
    | some task =>
      match updatePermission user task userId with
      | Except.error e => Except.error e
      | Except.ok _ =>
        match statusCheck dto task with
        | Except.error e => Except.error e
        | Except.ok _ =>
          match assignCheck users dto task user with
          | Except.error e => Except.error e
          | Except.ok _ =>
            let updatedTask := applyUpdate task dto
            Except.ok (updatedTask, updateEmits updatedTask dto task.status task.dueDate)

/-- The persistence effect of update: the store is rewritten only when update
succeeds; a thrown exception leaves every task untouched. -/
def updateStore (users : List User) (tasks : List Task) (id : TaskId) (dto : UpdateTaskDto)
    (userId : UserId) : List Task × Except ApiError Task :=
  match update users tasks id dto userId with
  | Except.ok (t, _) => (tasks.map (fun x => if x.id == id then t else x), Except.ok t)
  | Except.error e => (tasks, Except.error e)

/-- The task-construction part of TasksService.createTask (lines 23-68): role gating,
assignee validation and schema defaults (status TODO, priority MEDIUM). -/
def buildNewTask (users : List User) (user : User) (newId : TaskId) (dto : CreateTaskDto)
    (userId : UserId) : Except ApiError Task :=
  let base : Task :=
    { id := newId, title := dto.title, description := dto.description
      status := TaskStatus.TODO, priority := dto.priority.getD TaskPriority.MEDIUM
      dueDate := dto.dueDate, assignedTo := userId, assignedBy := userId
      isPersonal := false, createdBy := userId }
  if dto.isPersonal.getD false then
    if user.role ≠ UserRole.MEMBER then
      Except.error (ApiError.forbidden "Only members can create personal tasks")
    else Except.ok { base with assignedTo := userId, isPersonal := true }
  else
    if user.role ≠ UserRole.MANAGER then
      Except.error (ApiError.forbidden "Only managers can create project tasks")
    else
      match dto.assignedTo with
      | none => Except.error (ApiError.badRequest " tasks must be assigned to a member")
      | some a =>
        match findUser users a with
        | some assignedUser =>
          if assignedUser.role ≠ UserRole.MEMBER then
            Except.error (ApiError.badRequest "Can only assign tasks to members")
          else Except.ok { base with assignedTo := a, isPersonal := false }
        | none => Except.error (ApiError.badRequest "Can only assign tasks to members")

/-- The emission block of TasksService.createTask (lines 82-101): project tasks only,
scoped to the acting manager. -/
def createEmits (task : Task) (userId : UserId) : List Emit :=
  if task.isPersonal then []
  else
    [⟨userId, TaskAction.TASK_CREATED, true⟩]
      ++ (if task.priority = TaskPriority.HIGH then
            [⟨userId, TaskAction.TASK_HIGH_PRIORITY, true⟩] else [])
      ++ (if task.dueDate.isSome then [⟨userId, TaskAction.TASK_DUE_DATE, true⟩] else [])
      ++ (if task.status = TaskStatus.COMPLETED then
            [⟨userId, TaskAction.TASK_COMPLETED, true⟩] else [])
      ++ (if task.status = TaskStatus.IN_PROGRESS then
            [⟨userId, TaskAction.TASK_IN_PROGRESS, true⟩] else [])

/-- TasksService.createTask (src/unnamed/part_012 lines 23-104). -/
def createTask (users : List User) (newId : TaskId) (dto : CreateTaskDto) (userId : UserId) :
    Except ApiError (Task × List Emit) :=
  match findUser users userId with
  | none => Except.error (ApiError.notFound "User not found")
  | some user =>
    match buildNewTask users user newId dto userId with
    | Except.error e => Except.error e
    | Except.ok task => Except.ok (task, createEmits task userId)

/-- TasksService.findOne (src/unnamed/part_012 lines 204-236). For a project task,
only MEMBER actors are restricted; MANAGER and ADMIN fall through. -/
def findOne (users : List User) (tasks : List Task) (id : TaskId) (userId : UserId) :
    Except ApiError Task :=
  match findUser users userId with
  | none => Except.error (ApiError.notFound "User not found")
  | some user =>
    match findTask tasks id with
    | none => Except.error (ApiError.notFound "Task not found")
    | some task =>
      if task.isPersonal then
        if task.createdBy ≠ userId then
          Except.error (ApiError.forbidden "Cannot access personal task of another user")
        else Except.ok task
      else
        if user.role = UserRole.MEMBER then
          if task.assignedTo ≠ userId then
            Except.error (ApiError.forbidden "Cannot access project task not assigned to you")
          else Except.ok task
        else Except.ok task

/-- TasksService.remove (src/unnamed/part_012 lines 347-375). Returns the store after
findByIdAndDelete. ADMIN actors fall through the project-task role branches. -/
def remove (users : List User) (tasks : List Task) (id : TaskId) (userId : UserId) :
    Except ApiError (List Task) :=
  match findUser users userId with
  | none => Except.error (ApiError.notFound "User not found")
  | some user =>
    match findTask tasks id with
    | none => Except.error (ApiError.notFound "Task not found")
    | some task =>
      if task.isPersonal then
        if task.createdBy ≠ userId then
          Except.error (ApiError.forbidden "Cannot delete personal task of another user")
        else Except.ok (tasks.filter (fun t => t.id != id))
      else
        if user.role = UserRole.MEMBER then
          Except.error (ApiError.forbidden "Members cannot delete project tasks")
        else if user.role = UserRole.MANAGER then
          if task.createdBy ≠ userId then
            Except.error (ApiError.forbidden "Can only delete tasks you created")
          else Except.ok (tasks.filter (fun t => t.id != id))
        else Except.ok (tasks.filter (fun t => t.id != id))

/-- The structured result of deleteTaskAsManager. -/
structure DeleteResult where
  success : Bool
  error : Option String
  message : String
deriving DecidableEq, Repr

/-- Hex-digit test for ObjectId validity. -/
def isHexChar (c : Char) : Bool :=
  c.isDigit || (97 ≤ c.toNat && c.toNat ≤ 102) || (65 ≤ c.toNat && c.toNat ≤ 70)

/-- Types.ObjectId.isValid on the canonical 24-hex-character representation. -/
def isValidObjectId (s : String) : Bool :=
  s.length == 24 && s.toList.all isHexChar

/-- TasksService.deleteTaskAsManager (src/unnamed/part_012 lines 413-484). Returns
the structured outcome together with the resulting store. -/
def deleteTaskAsManager (users : List User) (tasks : List Task) (taskId : TaskId)
    (userId : UserId) : DeleteResult × List Task :=
  if ¬isValidObjectId taskId then
    ({ success := false, error := some "Invalid task ID"
       message := "The provided task ID is not valid" }, tasks)
  else
    match findUser users userId with
    | none =>
      ({ success := false, error := some "User not found"
         message := "The specified user does not exist" }, tasks)
    | some user =>
      if user.role ≠ UserRole.MANAGER ∧ user.role ≠ UserRole.ADMIN then
        ({ success := false, error := some "Insufficient permissions"
           message := "Only managers and administrators can delete tasks" }, tasks)
      else
        match findTask tasks taskId with
        | none =>
          ({ success := false, error := some "Task not found"
             message := "The specified task does not exist" }, tasks)
        | some task =>
          if user.role = UserRole.MANAGER ∧ task.createdBy ≠ userId then
            ({ success := false, error := some "Access denied"
               message := "Managers can only delete tasks they created" }, tasks)
          else
            ({ success := true, error := none
               message := "Task deleted successfully" },
             tasks.filter (fun t => t.id != taskId))

/-- QueryTasksDto, reconstructed from the fields TasksService.findAll reads
(src/unnamed/part_012 lines 106-201); the dto file itself is absent from the
snapshot. `overdue` follows JS truthiness (absent and false coincide). -/
structure QueryTasksDto where
  status : Option TaskStatus := none
  priority : Option TaskPriority := none
  assignedTo : Option UserId := none
  dueDateFrom : Option Nat := none
  dueDateTo : Option Nat := none
  overdue : Option Bool := none
  search : Option String := none
  page : Option Nat := none
  limit : Option Nat := none
deriving DecidableEq, Repr

/-- Case-insensitive regex test { $regex: pat, $options: i } restricted to literal
patterns: does `pat` occur (case-insensitively) inside `s`? `leadMatch s p` checks
that p is an initial run of s. -/
def leadMatch : List Char → List Char → Bool
  | _, [] => true
  | [], _ :: _ => false
  | c :: cs, d :: ds => c == d && leadMatch cs ds

/-- Sliding occurrence test over character lists. -/
def subMatch (p : List Char) : List Char → Bool
  | [] => leadMatch [] p
  | c :: t => leadMatch (c :: t) p || subMatch p t

/-- Case-insensitive containment of `pat` in `s`. -/
def iSearch (s pat : String) : Bool :=
  subMatch pat.toLower.toList s.toLower.toList

/-- The Mongo filter object findAll assembles. A `none` field is absent from the
filter; `overdueClause` is the $and block; `searchClause` the $or regex block. -/
structure MongoFilter where
  assignedTo : Option UserId := none
  createdBy : Option UserId := none
  status : Option TaskStatus := none
  priority : Option TaskPriority := none
  dueGte : Option Nat := none
  dueLte : Option Nat := none
  overdueClause : Bool := false
  searchClause : Option String := none
deriving DecidableEq, Repr

/-- filter.assignedTo / filter.createdBy role scoping (lines 114-120). -/
def roleScopeF (user : User) (userId : UserId) (f : MongoFilter) : MongoFilter :=
  let f := if user.role = UserRole.MEMBER then { f with assignedTo := some userId } else f
  if user.role = UserRole.MANAGER then { f with createdBy := some userId } else f

/-- filter.status (lines 123-126). -/
def statusF (q : QueryTasksDto) (f : MongoFilter) : MongoFilter :=
  match q.status with
  | some s => { f with status := some s }
  | none => f

/-- filter.priority (lines 127-130). -/
def priorityF (q : QueryTasksDto) (f : MongoFilter) : MongoFilter :=
  match q.priority with
  | some p => { f with priority := some p }
  | none => f

/-- The assignedTo query filter, honoured only for non-members (lines 131-135). -/
def assignedToF (user : User) (q : QueryTasksDto) (f : MongoFilter) : MongoFilter :=
  match q.assignedTo with
  | some a => if user.role ≠ UserRole.MEMBER then { f with assignedTo := some a } else f
  | none => f

/-- filter.dueDate.$gte / $lte (lines 138-150). -/
def dueRangeF (q : QueryTasksDto) (f : MongoFilter) : MongoFilter :=
  let f := match q.dueDateFrom with
    | some d => { f with dueGte := some d }
    | none => f
  match q.dueDateTo with
  | some d => { f with dueLte := some d }
  | none => f

/-- The overdue $and block (lines 152-159). -/
def overdueF (q : QueryTasksDto) (f : MongoFilter) : MongoFilter :=
  if q.overdue.getD false then { f with overdueClause := true } else f

/-- The search $or block (lines 161-168). -/
def searchF (q : QueryTasksDto) (f : MongoFilter) : MongoFilter :=
  match q.search with
  | some s => { f with searchClause := some s }
  | none => f

/-- The filter object of TasksService.findAll, assembled in source order. -/
def buildFilter (user : User) (q : QueryTasksDto) (userId : UserId) : MongoFilter :=
  searchF q (overdueF q (dueRangeF q (assignedToF user q (priorityF q (statusF q
    (roleScopeF user userId {}))))))

/-- Match of one optional filter field. -/
def optMatch {α : Type} (o : Option α) (p : α → Bool) : Bool :=
  match o with
  | none => true
  | some v => p v

/-- Mongo evaluation of the assembled filter against one task document. Documents
without a dueDate never match a dueDate comparison. -/
def matchesFilter (f : MongoFilter) (now : Nat) (t : Task) : Bool :=
  optMatch f.assignedTo (fun a => t.assignedTo == a)
    && optMatch f.createdBy (fun c => t.createdBy == c)
    && optMatch f.status (fun s => t.status == s)
    && optMatch f.priority (fun p => t.priority == p)
    && optMatch f.dueGte (fun d => match t.dueDate with
        | some dd => d ≤ dd
        | none => false)
    && optMatch f.dueLte (fun d => match t.dueDate with
        | some dd => dd ≤ d
        | none => false)
    && (!f.overdueClause
        || ((match t.dueDate with
              | some dd => dd < now
              | none => false)
            && !(t.status == TaskStatus.COMPLETED) && !(t.status == TaskStatus.CANCELLED)))
    && optMatch f.searchClause (fun s =>
        iSearch t.title s
          || (match t.description with
              | some d => iSearch d s
              | none => false))

/-- TasksService.findAll (src/unnamed/part_012 lines 106-201): returned page of
tasks plus (page, limit, total). -/
def findAll (users : List User) (tasks : List Task) (q : QueryTasksDto) (userId : UserId)
    (now : Nat) : Except ApiError (List Task × Nat × Nat × Nat) :=
  match findUser users userId with
  | none => Except.error (ApiError.notFound "User not found")
  | some user =>
    let f := buildFilter user q userId
    let page := q.page.getD 1
    let limit := q.limit.getD 10
    let skip := (page - 1) * limit
    let matching := tasks.filter (matchesFilter f now)
    Except.ok ((matching.drop skip).take limit, page, limit, matching.length)

/-- ManagerDashboardStats (src/src/dashboard/interfaces/common.ts). -/
structure ManagerDashboardStats where
  totalTasks : Nat
  overdueTasks : Nat
  completedTasks : Nat
  inProgressTasks : Nat
  infoManagerId : UserId
deriving DecidableEq, Repr

/-- taskModel.countDocuments. -/
def countDocs (tasks : List Task) (p : Task → Bool) : Nat :=
  (tasks.filter p).length

/-- ManagerDashboardService.getManagerStats (src/src/dashboard/manager-dashboard.service.ts
lines 19-60): every count is scoped by createdBy = managerId. -/
def getManagerStats (tasks : List Task) (now : Nat) (managerId : UserId) :
    ManagerDashboardStats :=
  { totalTasks := countDocs tasks (fun t => t.createdBy == managerId)
    overdueTasks := countDocs tasks (fun t =>
      t.createdBy == managerId
        && (match t.dueDate with
            | some d => d < now
            | none => false)
        && !(t.status == TaskStatus.COMPLETED))
    completedTasks := countDocs tasks (fun t =>
      t.createdBy == managerId && t.status == TaskStatus.COMPLETED)
    inProgressTasks := countDocs tasks (fun t =>
      t.createdBy == managerId && t.status == TaskStatus.IN_PROGRESS)
    infoManagerId := managerId }

/-- JS truthiness of a populated id field. -/
def isTruthyId (s : String) : Bool := s ≠ ""

/-- Insertion of a task into a list kept sorted by updatedAt descending. -/
def insertDescBy (t : Task) : List Task → List Task
  | [] => [t]
  | h :: r =>
    if t.updatedAt.getD 0 ≥ h.updatedAt.getD 0 then t :: h :: r
    else h :: insertDescBy t r

/-- sort({ updatedAt: -1 }). -/
def sortByUpdatedDesc : List Task → List Task
  | [] => []
  | h :: r => insertDescBy h (sortByUpdatedDesc r)

/-- ManagerDashboardService.getManagerActivity (lines 62-137): the query takes all
tasks with an updatedAt, sorted by updatedAt descending, limit 10, then keeps those
with a performer (lastUpdatedBy or createdBy). The source deliberately applies no
createdBy/managerId filter ("get all tasks without manager filtering"); managerId
is used only in log lines. This returns the selected task documents, from which the
TaskEvent payloads are projected. -/
def getManagerActivity (tasks : List Task) (managerId : UserId) : List Task :=
  ((sortByUpdatedDesc (tasks.filter (fun t => t.updatedAt.isSome))).take 10).filter
    (fun t => t.lastUpdatedBy.isSome || isTruthyId t.createdBy)

/-- The identity a verified JWT yields in the gateway. -/
structure WsUser where
  id : UserId
  email : String
  role : UserRole
deriving DecidableEq, Repr

/-- Role names as they appear in JWT payloads and room names. -/
def roleName : UserRole → String
  | UserRole.ADMIN => "ADMIN"
  | UserRole.MANAGER => "MANAGER"
  | UserRole.MEMBER => "MEMBER"

/-- Outcome of DashboardGateway.handleConnection: rejected connections are
disconnected; accepted ones carry the rooms the socket was joined to. -/
inductive ConnOutcome where
  | rejected (code : String)
  | accepted (user : WsUser) (rooms : List String)
deriving DecidableEq, Repr

/-- DashboardGateway.handleConnection (src/src/websocket/websocket.gateway.ts lines
43-104). A missing token rejects with AUTH_TOKEN_MISSING; a failed verification
rejects with AUTH_FAILED; on success the socket joins exactly role-<role> and
user-<id> (lines 75-76). -/
def handleConnection (token : Option String) (verify : String → Option WsUser) : ConnOutcome :=
  match token with
  | none => ConnOutcome.rejected "AUTH_TOKEN_MISSING"
  | some tk =>
    match verify tk with
    | none => ConnOutcome.rejected "AUTH_FAILED"
    | some user =>
      ConnOutcome.accepted user ["role-" ++ roleName user.role, "user-" ++ user.id]

/-- Modelled from the spec: DashboardGateway.emitTaskEvent(managerId, action,
isIncrement) is awaited by TasksService (src/unnamed/part_012) and by
ManagerDashboardService.emitTaskCounter, but its body is absent from the snapshot
of src/src/websocket/websocket.gateway.ts. Per spec sections 4.4, 4.5 and 7 it
routes the counter event to room manager-<managerId>, and - like every other emit
method of the gateway - recovers a delivery failure locally (logged, swallowed).
`deliver` is the outcome of the underlying socket broadcast; the result is the
produced log lines and the (room, event) deliveries; no error ever escapes. -/
def emitTaskEventG (e : Emit) (deliver : Except String Unit) :
    List String × List (String × Emit) :=
  match deliver with
  | Except.ok _ => ([], [("manager-" ++ e.managerId, e)])
  | Except.error msg => (["Failed to emit: " ++ msg], [])

/-- Sequential awaiting of the emitTaskEvent requests of one mutation; `oracle n`
is the delivery outcome of the n-th broadcast. Collects the log lines; never
throws. -/
def runEmits : List Emit → (Nat → Except String Unit) → Nat → List String
  | [], _, _ => []
  | e :: r, oracle, i => (emitTaskEventG e (oracle i)).1 ++ runEmits r oracle (i + 1)

/-- createTask followed by its broadcasts under a delivery oracle: the value
returned to the HTTP caller, plus the gateway log lines. -/
def runCreateTask (users : List User) (newId : TaskId) (dto : CreateTaskDto)
    (userId : UserId) (oracle : Nat → Except String Unit) :
    Except ApiError Task × List String :=
  match createTask users newId dto userId with
  | Except.ok (t, es) => (Except.ok t, runEmits es oracle 0)
  | Except.error e => (Except.error e, [])

/-- update followed by its broadcasts under a delivery oracle. -/
def runUpdate (users : List User) (tasks : List Task) (id : TaskId) (dto : UpdateTaskDto)
    (userId : UserId) (oracle : Nat → Except String Unit) :
    Except ApiError Task × List String :=
  match update users tasks id dto userId with
  | Except.ok (t, es) => (Except.ok t, runEmits es oracle 0)
  | Except.error e => (Except.error e, [])

/-- The gateway requests TasksService.remove performs: its body (lines 347-375)
contains no dashboardGateway call on any path, so the trace is empty. -/
def removeEmits (_users : List User) (_tasks : List Task) (_id : TaskId)
    (_userId : UserId) : List Emit := []

/-- The gateway requests TasksService.deleteTaskAsManager performs: its body
(lines 413-484) contains no dashboardGateway call on any path. -/
def deleteTaskAsManagerEmits (_users : List User) (_tasks : List Task) (_taskId : TaskId)
    (_userId : UserId) : List Emit := []

/- Concrete instances used by the witnesses and counterexamples. -/

/-- A canonical 24-hex-character ObjectId. -/
def hexId : TaskId := "aaaaaaaaaaaaaaaaaaaaaaaa"

def mgrM1 : User := { id := "m1", role := UserRole.MANAGER }

def mgrM2 : User := { id := "m2", role := UserRole.MANAGER }

def memU1 : User := { id := "u1", role := UserRole.MEMBER }

def memU2 : User := { id := "u2", role := UserRole.MEMBER }

def admA1 : User := { id := "a1", role := UserRole.ADMIN }

/-- A project task created by manager m1 and assigned to member u1, status TODO,
no due date, empty history lists. -/
def projTaskA : Task :=
  { id := hexId, title := "Ship feature", assignedTo := "u1", assignedBy := "m1"
    createdBy := "m1" }

/-- The same project task while IN_PROGRESS. -/
def c4Task : Task :=
  { id := hexId, title := "Ship feature", assignedTo := "u1", assignedBy := "m1"
    createdBy := "m1", status := TaskStatus.IN_PROGRESS }

/-- A personal task of member u1. -/
def persTask : Task :=
  { id := hexId, title := "Read book", assignedTo := "u1", assignedBy := "u1"
    createdBy := "u1", isPersonal := true }

/-- A recently updated task created by manager m2. -/
def foreignTask : Task :=
  { id := hexId, title := "Other managers task", assignedTo := "u2", assignedBy := "m2"
    createdBy := "m2", status := TaskStatus.IN_PROGRESS, updatedAt := some 50
    lastUpdatedBy := some "u2" }

/-- The identity of a manager connection. -/
def mgrWs : WsUser := { id := "m1", email := "m1@example.com", role := UserRole.MANAGER }

/-- A pure status patch performing the allowed transition TODO to IN_PROGRESS. -/
def c1GoodDto : UpdateTaskDto := { status := some TaskStatus.IN_PROGRESS }

/-- A pure status patch requesting TODO to COMPLETED, which is outside the table. -/
def c1BadDto : UpdateTaskDto := { status := some TaskStatus.COMPLETED }

/-- A member patch smuggling title and priority next to a status change. -/
def c2Dto : UpdateTaskDto :=
  { title := some "Injected title", priority := some TaskPriority.HIGH
    status := some TaskStatus.IN_PROGRESS }

/-- A pure status patch used on a personal task. -/
def c5Dto : UpdateTaskDto := { status := some TaskStatus.IN_PROGRESS }

/-- A patch changing status, priority, due date and assignee at once. -/
def c7Dto : UpdateTaskDto :=
  { status := some TaskStatus.IN_PROGRESS, priority := some TaskPriority.HIGH
    dueDate := some (some 99), assignedTo := some "u2" }

/-- A member query that tries to filter by somebody else. -/
def c10Query : QueryTasksDto := { assignedTo := some "u2" }

/- Theorems. -/

/-- C1: for every task and every update request asking for a status different from
the current one, when the user and task exist and the permission and reassignment
checks pass, the new status is accepted if and only if the pair lies in the
transition table; a request outside the table fails with the invalid-transition
error carrying the current status and its list of valid next statuses, and the
store is left unchanged. -/
theorem statusTransitionGate
    (users : List User) (tasks : List Task) (id : TaskId) (dto : UpdateTaskDto)
    (userId : UserId) (user : User) (task : Task) (s : TaskStatus)
    (hu : findUser users userId = some user)
    (ht : findTask tasks id = some task)
    (hperm : updatePermission user task userId = Except.ok ())
    (hassign : assignCheck users dto task user = Except.ok ())
    (hs : dto.status = some s) (hne : s ≠ task.status) :
    ((validTransitions task.status).contains s = true →
      update users tasks id dto userId =
        Except.ok (applyUpdate task dto,
          updateEmits (applyUpdate task dto) dto task.status task.dueDate)
      ∧ (applyUpdate task dto).status = s)
    ∧ ((validTransitions task.status).contains s = false →
      update users tasks id dto userId =
        Except.error (ApiError.invalidTransition task.status (validTransitions task.status))
      ∧ (updateStore users tasks id dto userId).1 = tasks) := by
  have hsc : statusCheck dto task = validateStatusTransition task.status s := by
    simp [statusCheck, hs, hne]
  constructor
  · intro hmem
    have hval : validateStatusTransition task.status s = Except.ok () := by
      unfold validateStatusTransition
      rw [hmem]
      simp
    refine ⟨?_, by simp [applyUpdate, hs]⟩
    simp [update, hu, ht, hperm, hsc, hval, hassign]
  · intro hmem
    have hval : validateStatusTransition task.status s =
        Except.error (ApiError.invalidTransition task.status (validTransitions task.status)) := by
      unfold validateStatusTransition
      rw [hmem]
      simp
    have hupd : update users tasks id dto userId =
        Except.error (ApiError.invalidTransition task.status (validTransitions task.status)) := by
      simp [update, hu, ht, hperm, hsc, hval]
    exact ⟨hupd, by simp [updateStore, hupd]⟩

/-- C1 witness: manager m1 moves their TODO task to IN_PROGRESS (accepted) and is
refused TODO to COMPLETED with the error carrying TODO and its valid successors. -/
theorem statusTransitionGate_witness :
    (update [mgrM1] [projTaskA] hexId c1GoodDto "m1" =
        Except.ok (applyUpdate projTaskA c1GoodDto,
          updateEmits (applyUpdate projTaskA c1GoodDto) c1GoodDto projTaskA.status
            projTaskA.dueDate)
      ∧ (applyUpdate projTaskA c1GoodDto).status = TaskStatus.IN_PROGRESS)
    ∧ (update [mgrM1] [projTaskA] hexId c1BadDto "m1" =
        Except.error (ApiError.invalidTransition TaskStatus.TODO
          [TaskStatus.IN_PROGRESS, TaskStatus.CANCELLED])
      ∧ (updateStore [mgrM1] [projTaskA] hexId c1BadDto "m1").1 = [projTaskA]) := by
  constructor
  · exact (statusTransitionGate [mgrM1] [projTaskA] hexId c1GoodDto "m1" mgrM1 projTaskA
      TaskStatus.IN_PROGRESS rfl rfl rfl rfl rfl (by decide)).1 (by decide)
  · exact (statusTransitionGate [mgrM1] [projTaskA] hexId c1BadDto "m1" mgrM1 projTaskA
      TaskStatus.COMPLETED rfl rfl rfl rfl rfl (by decide)).2 (by decide)

/-- C2: evaluation of the code at the failing input. Member u1, assignee of the
project task, sends a patch carrying title and priority next to a status change;
TasksService.update accepts the whole patch and persists the title and priority
changes, instead of rejecting the update as the claim requires. -/
theorem memberUpdateChangesNonStatusFields :
    memU1.role = UserRole.MEMBER ∧ projTaskA.isPersonal = false
    ∧ projTaskA.assignedTo = memU1.id
    ∧ update [memU1] [projTaskA] hexId c2Dto "u1" =
        Except.ok ({ projTaskA with
            title := "Injected title", priority := TaskPriority.HIGH
            status := TaskStatus.IN_PROGRESS },
          [⟨"m1", TaskAction.TASK_IN_PROGRESS, true⟩]) :=
  ⟨rfl, rfl, rfl, rfl⟩

/-- C3: evaluation of the code at the failing input. A MANAGER connection that
authenticates successfully is joined to exactly role-MANAGER and user-m1; the room
manager-m1 - the only target of the task counter events - is never joined. -/
theorem managerRoomNeverJoined :
    handleConnection (some "token") (fun _ => some mgrWs) =
      ConnOutcome.accepted mgrWs ["role-MANAGER", "user-m1"]
    ∧ "manager-m1" ∉ ["role-MANAGER", "user-m1"] :=
  ⟨rfl, by decide⟩

/-- C4: evaluation of the code at the failing input. The IN_PROGRESS to COMPLETED
update of manager m1 emits one TASK_COMPLETED increment but two TASK_IN_PROGRESS
decrements (the dedicated branch at lines 328-330 and the general one at lines
338-340 both fire), not exactly one of each. -/
theorem inProgressDecrementedTwice :
    update [mgrM1] [c4Task] hexId { status := some TaskStatus.COMPLETED } "m1" =
      Except.ok ({ c4Task with status := TaskStatus.COMPLETED },
        [⟨"m1", TaskAction.TASK_COMPLETED, true⟩,
         ⟨"m1", TaskAction.TASK_IN_PROGRESS, false⟩,
         ⟨"m1", TaskAction.TASK_IN_PROGRESS, false⟩]) := rfl

/-- Helper: a successful createTask emits exactly createEmits of the created task. -/
theorem createTask_ok_shape (users : List User) (newId : TaskId) (dto : CreateTaskDto)
    (userId : UserId) (t : Task) (es : List Emit)
    (h : createTask users newId dto userId = Except.ok (t, es)) :
    es = createEmits t userId := by
  unfold createTask at h
  split at h
  · exact absurd h (by simp)
  · split at h
    · exact absurd h (by simp)
    · simp only [Except.ok.injEq, Prod.mk.injEq] at h
      obtain ⟨h1, h2⟩ := h
      subst h1
      exact h2.symm

/-- Helper: a successful update returns the applied task and its update emissions. -/
theorem update_ok_shape (users : List User) (tasks : List Task) (id : TaskId)
    (dto : UpdateTaskDto) (userId : UserId) (t : Task) (es : List Emit)
    (h : update users tasks id dto userId = Except.ok (t, es)) :
    ∃ task, findTask tasks id = some task ∧ t = applyUpdate task dto
      ∧ es = updateEmits (applyUpdate task dto) dto task.status task.dueDate := by
  unfold update at h
  split at h
  · exact absurd h (by simp)
  · split at h
    · exact absurd h (by simp)
    · rename_i user task hft
      refine ⟨task, hft, ?_⟩
      split at h
      · exact absurd h (by simp)
      · split at h
        · exact absurd h (by simp)
        · split at h
          · exact absurd h (by simp)
          · simp only [Except.ok.injEq, Prod.mk.injEq] at h
            exact ⟨h.1.symm, h.2.symm⟩

/-- Helper: findByIdAndUpdate never touches the isPersonal flag (the dto has none). -/
theorem applyUpdate_isPersonal (task : Task) (dto : UpdateTaskDto) :
    (applyUpdate task dto).isPersonal = task.isPersonal := rfl

/-- C5: no operation on a personal task emits a broadcast event: a created personal
task emits nothing, an update of a personal task emits nothing, and the two delete
paths perform no gateway call at all; in particular no manager room ever receives
an event for a personal task. -/
theorem personalTaskNoBroadcast
    (users : List User) (tasks : List Task) (newId : TaskId) (cdto : CreateTaskDto)
    (id : TaskId) (udto : UpdateTaskDto) (uid : UserId) :
    (∀ t es, createTask users newId cdto uid = Except.ok (t, es) → t.isPersonal = true →
      es = [])
    ∧ (∀ task, findTask tasks id = some task → task.isPersonal = true →
      ∀ t es, update users tasks id udto uid = Except.ok (t, es) → es = [])
    ∧ removeEmits users tasks id uid = []
    ∧ deleteTaskAsManagerEmits users tasks id uid = [] := by
  refine ⟨?_, ?_, rfl, rfl⟩
  · intro t es h hp
    rw [createTask_ok_shape users newId cdto uid t es h]
    simp [createEmits, hp]
  · intro task hft hp t es h
    obtain ⟨task2, hft2, _, hes⟩ := update_ok_shape users tasks id udto uid t es h
    rw [hft] at hft2
    cases hft2
    rw [hes]
    simp [updateEmits, applyUpdate_isPersonal, hp]

/-- C5 witness: member u1 moves their personal task to IN_PROGRESS; the update
succeeds and performs zero emissions. -/
theorem personalTaskNoBroadcast_witness :
    update [memU1] [persTask] hexId c5Dto "u1" =
      Except.ok (applyUpdate persTask c5Dto, [])
    ∧ ([] : List Emit) = [] :=
  ⟨rfl, (personalTaskNoBroadcast [memU1] [persTask] hexId { title := "x" } hexId c5Dto
      "u1").2.1 persTask rfl rfl (applyUpdate persTask c5Dto) [] rfl⟩

/-- C6 counterexample: admin a1 deletes, through deleteTaskAsManager, a task created
by manager m1, and manager m2 reads through findOne a project task created by m1 -
both succeed although the claim says ADMIN has no task path and a MANAGER cannot
read another manager's task. -/
theorem adminAndCrossManagerAccessAllowed :
    (deleteTaskAsManager [admA1, mgrM1] [projTaskA] hexId "a1").1.success = true
    ∧ admA1.role = UserRole.ADMIN
    ∧ projTaskA.createdBy ≠ admA1.id
    ∧ findOne [mgrM2, mgrM1] [projTaskA] hexId "m2" = Except.ok projTaskA
    ∧ mgrM2.role = UserRole.MANAGER
    ∧ projTaskA.createdBy ≠ mgrM2.id :=
  ⟨rfl, rfl, by decide, rfl, rfl, by decide⟩

/-- C6 as amended: the exact access outcomes. findOne succeeds iff the task is
personal and owned, or is a project task and the actor is not a restricted member
(any MANAGER or ADMIN may read any project task); deleteTaskAsManager succeeds iff
the actor is a MANAGER or ADMIN, and a MANAGER only on tasks they created (an ADMIN
on any task); remove succeeds iff the actor owns the personal task, or the task is
a project task and the actor is its creating MANAGER or any ADMIN. -/
theorem taskAccessCharacterization
    (users : List User) (tasks : List Task) (id : TaskId) (uid : UserId)
    (user : User) (task : Task)
    (hu : findUser users uid = some user) (ht : findTask tasks id = some task) :
    (findOne users tasks id uid = Except.ok task ↔
      ((task.isPersonal = true → task.createdBy = uid)
        ∧ (task.isPersonal = false → user.role = UserRole.MEMBER → task.assignedTo = uid)))
    ∧ (isValidObjectId id = true →
      ((deleteTaskAsManager users tasks id uid).1.success = true ↔
        ((user.role = UserRole.MANAGER ∨ user.role = UserRole.ADMIN)
          ∧ (user.role = UserRole.MANAGER → task.createdBy = uid))))
    ∧ ((∃ ts, remove users tasks id uid = Except.ok ts) ↔
      ((task.isPersonal = true ∧ task.createdBy = uid)
        ∨ (task.isPersonal = false
            ∧ ((user.role = UserRole.MANAGER ∧ task.createdBy = uid)
                ∨ user.role = UserRole.ADMIN)))) := by
  refine ⟨?_, ?_, ?_⟩
  · unfold findOne
    rw [hu, ht]
    by_cases hip : task.isPersonal
    · by_cases hcb : task.createdBy = uid
      · simp [hip, hcb]
      · simp [hip, hcb]
    · simp only [Bool.not_eq_true] at hip
      cases hr : user.role
      · simp [hip, hr]
      · simp [hip, hr]
      · by_cases ha : task.assignedTo = uid
        · simp [hip, hr, ha]
        · simp [hip, hr, ha]
  · intro hv
    cases hr : user.role
    · simp [deleteTaskAsManager, hv, hu, ht, hr]
    · by_cases hcb : task.createdBy = uid
      · simp [deleteTaskAsManager, hv, hu, ht, hr, hcb]
      · simp [deleteTaskAsManager, hv, hu, ht, hr, hcb]
    · simp [deleteTaskAsManager, hv, hu, ht, hr]
  · by_cases hip : task.isPersonal = true
    · by_cases hcb : task.createdBy = uid
      · simp [remove, hu, ht, hip, hcb]
      · simp [remove, hu, ht, hip, hcb]
    · cases hr : user.role
      · simp [remove, hu, ht, hip, hr]
      · by_cases hcb : task.createdBy = uid
        · simp [remove, hu, ht, hip, hr, hcb]
        · simp [remove, hu, ht, hip, hr, hcb]
      · simp [remove, hu, ht, hip, hr]

/-- C6 witness: the characterization applied to manager m1 reading their own task. -/
theorem taskAccessCharacterization_witness :
    findOne [mgrM1] [projTaskA] hexId "m1" = Except.ok projTaskA :=
  (taskAccessCharacterization [mgrM1] [projTaskA] hexId "m1" mgrM1 projTaskA rfl rfl).1.mpr
    (by decide)

/-- C7: evaluation of the code at the failing input. Manager m1 changes status,
priority, due date and assignee of their task in one accepted update; every history
list of the resulting task is still empty - no history entry is ever appended. -/
theorem historyNeverAppended :
    projTaskA.statusHistory = [] ∧ projTaskA.priorityHistory = []
    ∧ projTaskA.assignmentHistory = [] ∧ projTaskA.dueDateHistory = []
    ∧ update [mgrM1, memU1, memU2] [projTaskA] hexId c7Dto "m1" =
        Except.ok ({ projTaskA with
            status := TaskStatus.IN_PROGRESS, priority := TaskPriority.HIGH
            dueDate := some 99, assignedTo := "u2" },
          [⟨"m1", TaskAction.TASK_DUE_DATE, true⟩,
           ⟨"m1", TaskAction.TASK_IN_PROGRESS, true⟩]) :=
  ⟨rfl, rfl, rfl, rfl, rfl⟩

/-- C8: for every create or update mutation and every delivery oracle, the value
returned to the caller equals the pure mutation result - broadcast failures are
swallowed by the gateway and never reach the mutation caller. -/
theorem broadcastFailureNeverSurfaces
    (users : List User) (tasks : List Task) (newId id : TaskId) (cdto : CreateTaskDto)
    (udto : UpdateTaskDto) (uid : UserId) (oracle : Nat → Except String Unit) :
    (runCreateTask users newId cdto uid oracle).1 =
      Except.map Prod.fst (createTask users newId cdto uid)
    ∧ (runUpdate users tasks id udto uid oracle).1 =
      Except.map Prod.fst (update users tasks id udto uid) := by
  constructor
  · cases h : createTask users newId cdto uid with
    | ok p => simp [runCreateTask, h, Except.map]
    | error e => simp [runCreateTask, h, Except.map]
  · cases h : update users tasks id udto uid with
    | ok p => simp [runUpdate, h, Except.map]
    | error e => simp [runUpdate, h, Except.map]

/-- C9 counterexample: manager m1 requests activity over a store holding a single
task created by m2; the recent-activity list contains that foreign task, so the
snapshot is not restricted to createdBy = scopeId. -/
theorem activityListNotScopedToManager :
    getManagerActivity [foreignTask] "m1" = [foreignTask]
    ∧ foreignTask.createdBy = "m2"
    ∧ ("m2" : String) ≠ "m1" :=
  ⟨rfl, rfl, by decide⟩

/-- Helper: filtering by a predicate already implied keeps countDocs unchanged. -/
theorem countDocs_filter_of_imp (tasks : List Task) (a p : Task → Bool)
    (h : ∀ t, p t = true → a t = true) :
    countDocs (tasks.filter a) p = countDocs tasks p := by
  unfold countDocs
  rw [List.filter_filter]
  congr 1
  apply List.filter_congr
  intro t _
  cases hp : p t
  · simp
  · simp [h t hp]

/-- C9 as amended: the four dashboard counts are scoped to createdBy = scopeId
(restricting the store to the manager's own tasks changes nothing), while the
recent-activity list is not scoped at all - it is identical for any two requesting
managers. -/
theorem statsScopedActivityUnscoped (tasks : List Task) (now : Nat) (m m2 : UserId) :
    getManagerStats tasks now m =
      getManagerStats (tasks.filter (fun t => t.createdBy == m)) now m
    ∧ getManagerActivity tasks m = getManagerActivity tasks m2 := by
  refine ⟨?_, rfl⟩
  unfold getManagerStats
  simp only [ManagerDashboardStats.mk.injEq]
  refine ⟨?_, ?_, ?_, ?_, trivial⟩
  · exact (countDocs_filter_of_imp tasks _ _ (fun t ht => ht)).symm
  · exact (countDocs_filter_of_imp tasks _ _ (fun t ht => by
      simp only [Bool.and_eq_true] at ht
      exact ht.1.1)).symm
  · exact (countDocs_filter_of_imp tasks _ _ (fun t ht => by
      simp only [Bool.and_eq_true] at ht
      exact ht.1)).symm
  · exact (countDocs_filter_of_imp tasks _ _ (fun t ht => by
      simp only [Bool.and_eq_true] at ht
      exact ht.1)).symm

/-- Helper: statusF never touches the assignedTo field. -/
theorem statusF_assignedTo (q : QueryTasksDto) (f : MongoFilter) :
    (statusF q f).assignedTo = f.assignedTo := by
  unfold statusF
  cases q.status <;> rfl

/-- Helper: statusF never touches the createdBy field. -/
theorem statusF_createdBy (q : QueryTasksDto) (f : MongoFilter) :
    (statusF q f).createdBy = f.createdBy := by
  unfold statusF
  cases q.status <;> rfl

/-- Helper: priorityF never touches the assignedTo field. -/
theorem priorityF_assignedTo (q : QueryTasksDto) (f : MongoFilter) :
    (priorityF q f).assignedTo = f.assignedTo := by
  unfold priorityF
  cases q.priority <;> rfl

/-- Helper: priorityF never touches the createdBy field. -/
theorem priorityF_createdBy (q : QueryTasksDto) (f : MongoFilter) :
    (priorityF q f).createdBy = f.createdBy := by
  unfold priorityF
  cases q.priority <;> rfl

/-- Helper: dueRangeF never touches the assignedTo field. -/
theorem dueRangeF_assignedTo (q : QueryTasksDto) (f : MongoFilter) :
    (dueRangeF q f).assignedTo = f.assignedTo := by
  unfold dueRangeF
  cases q.dueDateFrom <;> cases q.dueDateTo <;> rfl

/-- Helper: dueRangeF never touches the createdBy field. -/
theorem dueRangeF_createdBy (q : QueryTasksDto) (f : MongoFilter) :
    (dueRangeF q f).createdBy = f.createdBy := by
  unfold dueRangeF
  cases q.dueDateFrom <;> cases q.dueDateTo <;> rfl

/-- Helper: overdueF never touches the assignedTo field. -/
theorem overdueF_assignedTo (q : QueryTasksDto) (f : MongoFilter) :
    (overdueF q f).assignedTo = f.assignedTo := by
  unfold overdueF
  split <;> rfl

/-- Helper: overdueF never touches the createdBy field. -/
theorem overdueF_createdBy (q : QueryTasksDto) (f : MongoFilter) :
    (overdueF q f).createdBy = f.createdBy := by
  unfold overdueF
  split <;> rfl

/-- Helper: searchF never touches the assignedTo field. -/
theorem searchF_assignedTo (q : QueryTasksDto) (f : MongoFilter) :
    (searchF q f).assignedTo = f.assignedTo := by
  unfold searchF
  cases q.search <;> rfl

/-- Helper: searchF never touches the createdBy field. -/
theorem searchF_createdBy (q : QueryTasksDto) (f : MongoFilter) :
    (searchF q f).createdBy = f.createdBy := by
  unfold searchF
  cases q.search <;> rfl

/-- Helper: assignedToF never touches the createdBy field. -/
theorem assignedToF_createdBy (user : User) (q : QueryTasksDto) (f : MongoFilter) :
    (assignedToF user q f).createdBy = f.createdBy := by
  unfold assignedToF
  cases q.assignedTo
  · rfl
  · by_cases h : user.role = UserRole.MEMBER <;> simp [h]

/-- Helper: for a MEMBER actor the assignedTo query filter is a no-op. -/
theorem assignedToF_member (user : User) (q : QueryTasksDto) (f : MongoFilter)
    (h : user.role = UserRole.MEMBER) : assignedToF user q f = f := by
  unfold assignedToF
  cases q.assignedTo
  · rfl
  · simp [h]

/-- Helper: a MEMBER filter always carries assignedTo = the actor. -/
theorem buildFilter_member_assignedTo (user : User) (q : QueryTasksDto) (uid : UserId)
    (h : user.role = UserRole.MEMBER) :
    (buildFilter user q uid).assignedTo = some uid := by
  unfold buildFilter
  rw [searchF_assignedTo, overdueF_assignedTo, dueRangeF_assignedTo,
    assignedToF_member user q _ h, priorityF_assignedTo, statusF_assignedTo]
  simp [roleScopeF, h]

/-- Helper: a MANAGER filter always carries createdBy = the actor. -/
theorem buildFilter_manager_createdBy (user : User) (q : QueryTasksDto) (uid : UserId)
    (h : user.role = UserRole.MANAGER) :
    (buildFilter user q uid).createdBy = some uid := by
  unfold buildFilter
  rw [searchF_createdBy, overdueF_createdBy, dueRangeF_createdBy,
    assignedToF_createdBy, priorityF_createdBy, statusF_createdBy]
  simp [roleScopeF, h]

/-- Helper: for a MEMBER actor the assembled filter ignores the query assignedTo. -/
theorem buildFilter_member_ignores_assignedTo (user : User) (q : QueryTasksDto)
    (uid : UserId) (h : user.role = UserRole.MEMBER) :
    buildFilter user q uid = buildFilter user { q with assignedTo := none } uid := by
  unfold buildFilter
  rw [assignedToF_member user q _ h]
  rfl

/-- Helper: a matching task agrees with the filter's assignedTo field. -/
theorem matchesFilter_assignedTo (f : MongoFilter) (now : Nat) (t : Task) (a : UserId)
    (hf : f.assignedTo = some a) (hm : matchesFilter f now t = true) :
    t.assignedTo = a := by
  unfold matchesFilter at hm
  simp only [Bool.and_eq_true] at hm
  have := hm.1.1.1.1.1.1.1
  rw [hf] at this
  simpa [optMatch] using this

/-- Helper: a matching task agrees with the filter's createdBy field. -/
theorem matchesFilter_createdBy (f : MongoFilter) (now : Nat) (t : Task) (c : UserId)
    (hf : f.createdBy = some c) (hm : matchesFilter f now t = true) :
    t.createdBy = c := by
  unfold matchesFilter at hm
  simp only [Bool.and_eq_true] at hm
  have := hm.1.1.1.1.1.1.2
  rw [hf] at this
  simpa [optMatch] using this

/-- Helper: every task of a findAll page satisfies the assembled filter. -/
theorem findAll_mem_matches (users : List User) (tasks : List Task) (q : QueryTasksDto)
    (uid : UserId) (now : Nat) (user : User) (hu : findUser users uid = some user)
    (res : List Task × Nat × Nat × Nat)
    (h : findAll users tasks q uid now = Except.ok res) (t : Task) (hm : t ∈ res.1) :
    matchesFilter (buildFilter user q uid) now t = true := by
  unfold findAll at h
  rw [hu] at h
  simp only [Except.ok.injEq] at h
  rw [← h] at hm
  have h1 := List.take_subset _ _ hm
  have h2 := List.drop_subset _ _ h1
  exact (List.mem_filter.mp h2).2

/-- C10: for every task-list query, a MEMBER actor only ever receives tasks assigned
to them (and the caller-supplied assignedTo filter is ignored for members - the
query result is the same as with no such filter), while a MANAGER actor only ever
receives tasks they created. -/
theorem listingScopedByRole
    (users : List User) (tasks : List Task) (q : QueryTasksDto) (uid : UserId)
    (now : Nat) (user : User) (hu : findUser users uid = some user) :
    (user.role = UserRole.MEMBER →
      (∀ res, findAll users tasks q uid now = Except.ok res →
        ∀ t ∈ res.1, t.assignedTo = uid)
      ∧ findAll users tasks q uid now =
          findAll users tasks { q with assignedTo := none } uid now)
    ∧ (user.role = UserRole.MANAGER →
      ∀ res, findAll users tasks q uid now = Except.ok res →
        ∀ t ∈ res.1, t.createdBy = uid) := by
  constructor
  · intro hrole
    constructor
    · intro res h t hm
      exact matchesFilter_assignedTo _ now t uid
        (buildFilter_member_assignedTo user q uid hrole)
        (findAll_mem_matches users tasks q uid now user hu res h t hm)
    · unfold findAll
      rw [hu]
      dsimp only
      rw [buildFilter_member_ignores_assignedTo user q uid hrole]
  · intro hrole res h t hm
    exact matchesFilter_createdBy _ now t uid
      (buildFilter_manager_createdBy user q uid hrole)
      (findAll_mem_matches users tasks q uid now user hu res h t hm)

/-- C10 witness: member u1 lists tasks while asking to filter by u2; the returned
task is assigned to u1 and the result equals the query without the filter. -/
theorem listingScopedByRole_witness :
    projTaskA.assignedTo = "u1"
    ∧ findAll [memU1] [projTaskA] c10Query "u1" 5 =
        findAll [memU1] [projTaskA] { c10Query with assignedTo := none } "u1" 5 :=
  ⟨((listingScopedByRole [memU1] [projTaskA] c10Query "u1" 5 memU1 rfl).1 rfl).1
      ([projTaskA], 1, 10, 1) rfl projTaskA (List.mem_singleton_self projTaskA),
   ((listingScopedByRole [memU1] [projTaskA] c10Query "u1" 5 memU1 rfl).1 rfl).2⟩

end TodoServer
